import Mathlib

/-!
Verification of the SQL-assistant application (src/app.py): a shallow
embedding of the response orchestrator (`get_response`), the database
recovery logic, the prompt templates, and the Streamlit chat-input loop.

External collaborators are parameters of the embedding:
* the completion client (three `ChatGroq` calls) is a function
  `llm : String → Except String String`, where `.error e` models a raised
  exception with message `e`;
* the database handle is a structure `SQLDatabase` whose `run` field is
  `String → Except String String` (`.error e` models the exception the
  driver raises on a failing query) and whose `get_table_info` field is
  the schema text the driver returns.

Executions are instrumented with an explicit event trace (`Event`) so that
ordering, invocation and frame properties are statable: each completion
call, each database run, and each append to the chat transcript is an
event, listed in execution order.
-/

namespace SqlAssistant

deriving instance DecidableEq for Except

/-- Python string slicing `s[:n]`: the first `n` characters (code points). -/
def pyslice (s : String) (n : Nat) : String := String.mk (s.data.take n)

/-- Python `s.strip()`: leading and trailing whitespace removed. -/
def pystrip (s : String) : String :=
  String.mk (((s.data.dropWhile Char.isWhitespace).reverse.dropWhile Char.isWhitespace).reverse)

/-- A chat message: `langchain_core.messages.HumanMessage` / `AIMessage`,
carrying its `content` text. -/
inductive Message where
  | human (content : String)
  | ai (content : String)
deriving DecidableEq, Repr

/-- The dictionary returned by `get_response` (src/app.py line 129):
`{"query": query, "explanation": explanation, "answer": final_answer}`. -/
structure QueryResult where
  query : String
  explanation : String
  answer : String
deriving DecidableEq, Repr

/-- The database handle built by `init_database` (src/app.py lines 25-27).
`get_table_info` models `db.get_table_info()` (the schema text); `run`
models `db.run(query)`, with `.error e` standing for a raised exception
whose string form is `e`. -/
structure SQLDatabase where
  get_table_info : String
  run : String → Except String String

/-- One observable step of an execution: a completion-client call with its
prompt and outcome, a database `run` with its query and outcome, or an
append to `st.session_state.chat_history`. -/
inductive Event where
  | llmCall (prompt : String) (result : Except String String)
  | dbRun (query : String) (result : Except String String)
  | historyAppend (m : Message)
deriving DecidableEq, Repr

/-- The SQL-generation template of `get_sql_chain` (src/app.py lines 43-63)
with `schema` and `question` substituted for its placeholders. -/
def sql_gen_prompt (schema question : String) : String :=
  "\n     You are a data analyst at a company. You are interacting with a user who is asking you questions about the company's database.\n    Based on the table schema below, write a SQL query that would answer the user's question. Take the conversation history into account.\n    \n    <SCHEMA>" ++ schema ++ "</SCHEMA>\n    \n  \n    \n    Write only the SQL query and nothing else. Do not wrap the SQL query in any other text, not even backticks.\n    \n    For example:\n    Question: which 3 artists have the most tracks?\n    SQL Query: SELECT ArtistId, COUNT(*) as track_count FROM Track GROUP BY ArtistId ORDER BY track_count DESC LIMIT 3;\n    Question: Name 10 artists\n    SQL Query: SELECT Name FROM Artist LIMIT 10;\n    \n    Your turn:\n    \n    Question: " ++ question ++ "\n     SQL Query:\n    "

/-- The explanation template of step 2 (src/app.py lines 92-95) with its
`query` placeholder substituted. -/
def explain_prompt_text (query : String) : String :=
  "\n    Explain clearly and simply what the following SQL query does and what data it returns:\n    " ++ query ++ "\n    "

/-- The final-answer template of step 4 (src/app.py lines 107-117) with its
`schema`, `question`, `query` and `response` placeholders substituted. -/
def nl_prompt_text (schema question query response : String) : String :=
  "\n    You are a helpful SQL assistant. Based on the schema, question, SQL query, and SQL response,\n    write a **short, factual answer** to the user's question.\n    **Do not add explanations, speculations, or troubleshooting.**\n    Only return the direct answer.\n\n    <SCHEMA>" ++ schema ++ "</SCHEMA>\n    Question: " ++ question ++ "\n    SQL Query: " ++ query ++ "\n    SQL Response: " ++ response ++ "\n    "

/-- `get_schema` inside `get_sql_chain` (src/app.py lines 72-74):
`db.get_table_info()[:6000]`. -/
def get_schema (db : SQLDatabase) : String := pyslice db.get_table_info 6000

/-- The schema snapshot of step 4 (src/app.py line 120):
`db.get_table_info()[:4000]`. -/
def answer_schema (db : SQLDatabase) : String := pyslice db.get_table_info 4000

/-- Step 3 of `get_response` (src/app.py lines 101-104): the `try/except`
around `db.run(query)`.  A successful run passes the result text through;
a raised exception is caught and replaced by the string
`f"Error running query: {e}"`.  This total function is the code's
realization of the Database Session's `run` contract: it never propagates
the exception. -/
def run_with_recovery (db : SQLDatabase) (query : String) : String :=
  match db.run query with
  | .ok r => r
  | .error e => "Error running query: " ++ e

/-- `get_response(user_query, db)` (src/app.py lines 84-129), instrumented
with the trace of completion calls and database runs in execution order.
`llm` is the completion client; `.error` of an `llm` call models the
exception a failing `ChatGroq` call raises, which the source does not
catch, so it aborts the remaining steps and propagates. -/
def get_response (llm : String → Except String String) (user_query : String)
    (db : SQLDatabase) : Except String QueryResult × List Event :=
  let p1 := sql_gen_prompt (get_schema db) user_query
  match llm p1 with
  | .error e => (.error e, [.llmCall p1 (.error e)])
  | .ok query =>
    let p2 := explain_prompt_text query
    match llm p2 with
    | .error e => (.error e, [.llmCall p1 (.ok query), .llmCall p2 (.error e)])
    | .ok explanation =>
      let response_data := run_with_recovery db query
      let p3 := nl_prompt_text (answer_schema db) user_query query (pyslice response_data 3000)
      match llm p3 with
      | .error e =>
        (.error e,
         [.llmCall p1 (.ok query), .llmCall p2 (.ok explanation),
          .dbRun query (db.run query), .llmCall p3 (.error e)])
      | .ok final_answer =>
        (.ok ⟨query, explanation, final_answer⟩,
         [.llmCall p1 (.ok query), .llmCall p2 (.ok explanation),
          .dbRun query (db.run query), .llmCall p3 (.ok final_answer)])

/-- The content of the AI message saved to the transcript
(src/app.py line 179):
`outputs.get("answer") or outputs.get("explanation") or outputs["query"]`,
where Python `or` returns its first operand when that string is non-empty. -/
def chat_text (outputs : QueryResult) : String :=
  if outputs.answer ≠ "" then outputs.answer
  else if outputs.explanation ≠ "" then outputs.explanation
  else outputs.query

/-- The outcome of one run of the chat-input block for one submission. -/
inductive Outcome where
  | skipped
  | success (outputs : QueryResult)
  | failure (e : String)
deriving DecidableEq, Repr

/-- The chat-input block (src/app.py lines 159-180) for one submitted
`user_query`, acting on the current `chat_history`.  Guard as in the
source: `if user_query and user_query.strip() != ""` (`pystrip` models
`.strip()`).  On a non-empty submission the human message is appended,
then `get_response` runs; if it raises (an uncaught completion-client
error) the script run aborts there, leaving the transcript with only the
human message; otherwise the AI message with `chat_text` is appended.
Returns the new transcript, the outcome, and the event trace. -/
def ui_step (llm : String → Except String String) (db : SQLDatabase)
    (chat_history : List Message) (user_query : String) :
    List Message × Outcome × List Event :=
  if user_query ≠ "" ∧ pystrip user_query ≠ "" then
    let hist1 := chat_history ++ [Message.human user_query]
    match get_response llm user_query db with
    | (.ok outputs, tr) =>
      (hist1 ++ [Message.ai (chat_text outputs)], Outcome.success outputs,
       Event.historyAppend (Message.human user_query) ::
         (tr ++ [Event.historyAppend (Message.ai (chat_text outputs))]))
    | (.error e, tr) =>
      (hist1, Outcome.failure e,
       Event.historyAppend (Message.human user_query) :: tr)
  else (chat_history, Outcome.skipped, [])

/-- The transcript appends recorded in a trace, in order. -/
def appended (tr : List Event) : List Message :=
  tr.filterMap fun ev =>
    match ev with
    | .historyAppend m => some m
    | _ => none

/-! ### Helper lemmas -/

lemma pyslice_length (s : String) (n : Nat) : (pyslice s n).length = min n s.length := by
  cases s with
  | mk d => simp [pyslice, String.length]

lemma pyslice_of_le (s : String) (n : Nat) (h : s.length ≤ n) : pyslice s n = s := by
  cases s with
  | mk d =>
    simp only [String.length] at h
    simp [pyslice, List.take_of_length_le h]

lemma pyslice_length_of_ge (s : String) (n : Nat) (h : n ≤ s.length) :
    (pyslice s n).length = n := by
  rw [pyslice_length]
  exact Nat.min_eq_left h

lemma ne_empty_of_strip_ne (q : String) (h : pystrip q ≠ "") : q ≠ "" := by
  intro h0
  apply h
  rw [h0]
  decide

lemma get_response_ok (llm : String → Except String String) (db : SQLDatabase)
    (q query explanation answer : String)
    (h1 : llm (sql_gen_prompt (get_schema db) q) = .ok query)
    (h2 : llm (explain_prompt_text query) = .ok explanation)
    (h3 : llm (nl_prompt_text (answer_schema db) q query
        (pyslice (run_with_recovery db query) 3000)) = .ok answer) :
    get_response llm q db =
      (.ok ⟨query, explanation, answer⟩,
       [Event.llmCall (sql_gen_prompt (get_schema db) q) (.ok query),
        Event.llmCall (explain_prompt_text query) (.ok explanation),
        Event.dbRun query (db.run query),
        Event.llmCall (nl_prompt_text (answer_schema db) q query
          (pyslice (run_with_recovery db query) 3000)) (.ok answer)]) := by
  simp only [get_response, h1, h2, h3]

lemma get_response_err1 (llm : String → Except String String) (db : SQLDatabase)
    (q e : String)
    (h1 : llm (sql_gen_prompt (get_schema db) q) = .error e) :
    get_response llm q db =
      (.error e, [Event.llmCall (sql_gen_prompt (get_schema db) q) (.error e)]) := by
  simp only [get_response, h1]

lemma get_response_err2 (llm : String → Except String String) (db : SQLDatabase)
    (q query e : String)
    (h1 : llm (sql_gen_prompt (get_schema db) q) = .ok query)
    (h2 : llm (explain_prompt_text query) = .error e) :
    get_response llm q db =
      (.error e,
       [Event.llmCall (sql_gen_prompt (get_schema db) q) (.ok query),
        Event.llmCall (explain_prompt_text query) (.error e)]) := by
  simp only [get_response, h1, h2]

lemma get_response_err3 (llm : String → Except String String) (db : SQLDatabase)
    (q query explanation e : String)
    (h1 : llm (sql_gen_prompt (get_schema db) q) = .ok query)
    (h2 : llm (explain_prompt_text query) = .ok explanation)
    (h3 : llm (nl_prompt_text (answer_schema db) q query
        (pyslice (run_with_recovery db query) 3000)) = .error e) :
    get_response llm q db =
      (.error e,
       [Event.llmCall (sql_gen_prompt (get_schema db) q) (.ok query),
        Event.llmCall (explain_prompt_text query) (.ok explanation),
        Event.dbRun query (db.run query),
        Event.llmCall (nl_prompt_text (answer_schema db) q query
          (pyslice (run_with_recovery db query) 3000)) (.error e)]) := by
  simp only [get_response, h1, h2, h3]

lemma ui_step_ok (llm : String → Except String String) (db : SQLDatabase)
    (hist : List Message) (q : String) (outputs : QueryResult) (tr : List Event)
    (hq : pystrip q ≠ "")
    (hr : get_response llm q db = (.ok outputs, tr)) :
    ui_step llm db hist q =
      (hist ++ [Message.human q, Message.ai (chat_text outputs)],
       Outcome.success outputs,
       Event.historyAppend (Message.human q) ::
         (tr ++ [Event.historyAppend (Message.ai (chat_text outputs))])) := by
  have hq0 : q ≠ "" := ne_empty_of_strip_ne q hq
  simp [ui_step, if_pos (And.intro hq0 hq), hr]

lemma ui_step_err (llm : String → Except String String) (db : SQLDatabase)
    (hist : List Message) (q e : String) (tr : List Event)
    (hq : pystrip q ≠ "")
    (hr : get_response llm q db = (.error e, tr)) :
    ui_step llm db hist q =
      (hist ++ [Message.human q], Outcome.failure e,
       Event.historyAppend (Message.human q) :: tr) := by
  have hq0 : q ≠ "" := ne_empty_of_strip_ne q hq
  simp [ui_step, if_pos (And.intro hq0 hq), hr]

lemma ui_step_skip (llm : String → Except String String) (db : SQLDatabase)
    (hist : List Message) (q : String)
    (hq : q = "" ∨ pystrip q = "") :
    ui_step llm db hist q = (hist, Outcome.skipped, []) := by
  have hneg : ¬ (q ≠ "" ∧ pystrip q ≠ "") := by
    rcases hq with h | h
    · exact fun hc => hc.1 h
    · exact fun hc => hc.2 h
  simp [ui_step, if_neg hneg]

lemma appended_append (l1 l2 : List Event) :
    appended (l1 ++ l2) = appended l1 ++ appended l2 := by
  simp [appended, List.filterMap_append]

lemma appended_get_response (llm : String → Except String String) (db : SQLDatabase)
    (q : String) : appended (get_response llm q db).snd = [] := by
  rcases hl1 : llm (sql_gen_prompt (get_schema db) q) with e1 | query
  · rw [get_response_err1 llm db q e1 hl1]
    simp [appended]
  · rcases hl2 : llm (explain_prompt_text query) with e2 | expl
    · rw [get_response_err2 llm db q query e2 hl1 hl2]
      simp [appended]
    · rcases hl3 : llm (nl_prompt_text (answer_schema db) q query
          (pyslice (run_with_recovery db query) 3000)) with e3 | answer
      · rw [get_response_err3 llm db q query expl e3 hl1 hl2 hl3]
        simp [appended]
      · rw [get_response_ok llm db q query expl answer hl1 hl2 hl3]
        simp [appended]

/-! ### Concrete instances used by witnesses -/

/-- A completion client that always answers the fixed text `x`. -/
def llmConst : String → Except String String := fun _ => Except.ok "x"

/-- A completion client that always fails, modelling a network error. -/
def llmFail : String → Except String String := fun _ => Except.error "network down"

/-- A database whose every query succeeds. -/
def dbOk : SQLDatabase := ⟨"CREATE TABLE Artist (Name TEXT)", fun _ => Except.ok "[(1,)]"⟩

/-- A database whose every query raises, with message `no such table`. -/
def dbErr : SQLDatabase := ⟨"CREATE TABLE Artist (Name TEXT)", fun _ => Except.error "no such table"⟩

/-- A 6000-character text, longer than every truncation budget in use. -/
def longText : String := String.mk (List.replicate 6000 'a')

lemma longText_length : longText.length = 6000 := by
  show (List.replicate 6000 'a').length = 6000
  exact List.length_replicate 6000 'a'

/-- A database whose schema text is 6000 characters long. -/
def dbLong : SQLDatabase := ⟨longText, fun _ => Except.ok ""⟩

/-! ### Claims -/

/-- C1: when executing the generated SQL query raises an error, the answer
pipeline does not abort: `get_response` still returns an `.ok` result, the
error is captured as the textual payload `"Error running query: " ++ e`
which (truncated to 3000 characters) fills the response slot of the step-4
summarization prompt, and — the completion client returning non-empty text
on each of the three calls — the returned `QueryResult` has non-empty
`query`, `explanation` and `answer` fields. -/
theorem db_error_recovered (llm : String → Except String String)
    (db : SQLDatabase) (q e query explanation answer : String)
    (h1 : llm (sql_gen_prompt (get_schema db) q) = .ok query) (hq : query ≠ "")
    (h2 : llm (explain_prompt_text query) = .ok explanation) (he : explanation ≠ "")
    (hrun : db.run query = .error e)
    (h3 : llm (nl_prompt_text (answer_schema db) q query
        (pyslice ("Error running query: " ++ e) 3000)) = .ok answer)
    (ha : answer ≠ "") :
    ∃ r : QueryResult,
      (get_response llm q db).fst = .ok r ∧
      r.query ≠ "" ∧ r.explanation ≠ "" ∧ r.answer ≠ "" ∧
      Event.llmCall (nl_prompt_text (answer_schema db) q query
        (pyslice ("Error running query: " ++ e) 3000)) (.ok answer)
        ∈ (get_response llm q db).snd := by
  have hrec : run_with_recovery db query = "Error running query: " ++ e := by
    simp [run_with_recovery, hrun]
  have h3' : llm (nl_prompt_text (answer_schema db) q query
      (pyslice (run_with_recovery db query) 3000)) = .ok answer := by
    rw [hrec]
    exact h3
  refine ⟨⟨query, explanation, answer⟩, ?_, hq, he, ha, ?_⟩
  · rw [get_response_ok llm db q query explanation answer h1 h2 h3']
  · rw [get_response_ok llm db q query explanation answer h1 h2 h3', hrec]
    simp

theorem db_error_recovered_witness :
    ∃ r : QueryResult,
      (get_response llmConst "Name 10 artists" dbErr).fst = .ok r ∧
      r.query ≠ "" ∧ r.explanation ≠ "" ∧ r.answer ≠ "" ∧
      Event.llmCall (nl_prompt_text (answer_schema dbErr) "Name 10 artists" "x"
        (pyslice ("Error running query: " ++ "no such table") 3000)) (.ok "x")
        ∈ (get_response llmConst "Name 10 artists" dbErr).snd :=
  db_error_recovered llmConst dbErr "Name 10 artists" "no such table" "x" "x" "x"
    rfl (by decide) rfl (by decide) rfl rfl (by decide)

/-- C4: the AI message folded into the transcript after a successful
submission has content `chat_text outputs`, which equals the `answer`
field when that is non-empty, otherwise the `explanation` field when that
is non-empty, otherwise the `query` field. -/
theorem ai_message_content (llm : String → Except String String) (db : SQLDatabase)
    (hist : List Message) (q : String) (outputs : QueryResult) (tr : List Event)
    (hq : pystrip q ≠ "")
    (hr : get_response llm q db = (.ok outputs, tr)) :
    (ui_step llm db hist q).fst =
      hist ++ [Message.human q, Message.ai (chat_text outputs)] ∧
    (outputs.answer ≠ "" → chat_text outputs = outputs.answer) ∧
    (outputs.answer = "" → outputs.explanation ≠ "" →
      chat_text outputs = outputs.explanation) ∧
    (outputs.answer = "" → outputs.explanation = "" →
      chat_text outputs = outputs.query) := by
  refine ⟨?_, ?_, ?_, ?_⟩
  · rw [ui_step_ok llm db hist q outputs tr hq hr]
  · intro ha
    simp [chat_text, ha]
  · intro ha he
    simp [chat_text, ha, he]
  · intro ha he
    simp [chat_text, ha, he]

theorem ai_message_content_witness :
    (ui_step llmConst dbOk [] "hi").fst =
      [] ++ [Message.human "hi", Message.ai (chat_text ⟨"x", "x", "x"⟩)] ∧
    ((⟨"x", "x", "x"⟩ : QueryResult).answer ≠ "" →
      chat_text ⟨"x", "x", "x"⟩ = (⟨"x", "x", "x"⟩ : QueryResult).answer) ∧
    ((⟨"x", "x", "x"⟩ : QueryResult).answer = "" →
      (⟨"x", "x", "x"⟩ : QueryResult).explanation ≠ "" →
      chat_text ⟨"x", "x", "x"⟩ = (⟨"x", "x", "x"⟩ : QueryResult).explanation) ∧
    ((⟨"x", "x", "x"⟩ : QueryResult).answer = "" →
      (⟨"x", "x", "x"⟩ : QueryResult).explanation = "" →
      chat_text ⟨"x", "x", "x"⟩ = (⟨"x", "x", "x"⟩ : QueryResult).query) :=
  ai_message_content llmConst dbOk [] "hi" ⟨"x", "x", "x"⟩ _ (by decide)
    (get_response_ok llmConst dbOk "hi" "x" "x" "x" rfl rfl rfl)

/-- C5: for every non-empty user input on which the orchestrator returns
successfully, exactly one `QueryResult` is produced (the outcome carries
exactly the one result) and the transcript grows by exactly two messages,
the Human message followed by one AI message; the hypothesis covers runs
in which database execution failed internally, since `get_response` still
returns `.ok` then (see the witness, whose database raises on every
query). -/
theorem one_result_two_messages (llm : String → Except String String)
    (db : SQLDatabase) (hist : List Message) (q : String)
    (outputs : QueryResult) (tr : List Event)
    (hq : pystrip q ≠ "")
    (hr : get_response llm q db = (.ok outputs, tr)) :
    (ui_step llm db hist q).fst =
      hist ++ [Message.human q, Message.ai (chat_text outputs)] ∧
    (ui_step llm db hist q).snd.fst = Outcome.success outputs ∧
    (ui_step llm db hist q).fst.length = hist.length + 2 := by
  rw [ui_step_ok llm db hist q outputs tr hq hr]
  refine ⟨rfl, rfl, ?_⟩
  simp

theorem one_result_two_messages_witness :
    (ui_step llmConst dbErr [] "hi").fst =
      [] ++ [Message.human "hi", Message.ai (chat_text ⟨"x", "x", "x"⟩)] ∧
    (ui_step llmConst dbErr [] "hi").snd.fst = Outcome.success ⟨"x", "x", "x"⟩ ∧
    (ui_step llmConst dbErr [] "hi").fst.length = ([] : List Message).length + 2 :=
  one_result_two_messages llmConst dbErr [] "hi" ⟨"x", "x", "x"⟩ _ (by decide)
    (get_response_ok llmConst dbErr "hi" "x" "x" "x" rfl rfl rfl)

/-- C6: for every empty or whitespace-only user input, the chat-input
block leaves the transcript unchanged, produces no result, and its trace
is empty — in particular it performs no completion call and no database
run, i.e. the orchestrator `get_response` is not invoked. -/
theorem blank_input_no_invocation (llm : String → Except String String)
    (db : SQLDatabase) (hist : List Message) (q : String)
    (hq : q = "" ∨ pystrip q = "") :
    ui_step llm db hist q = (hist, Outcome.skipped, []) :=
  ui_step_skip llm db hist q hq

theorem blank_input_no_invocation_witness :
    ui_step llmConst dbOk [Message.ai "hello"] "   " =
      ([Message.ai "hello"], Outcome.skipped, []) :=
  blank_input_no_invocation llmConst dbOk [Message.ai "hello"] "   "
    (Or.inr (by decide))

/-- C2: the Database Session's `run` operation — realized in the source by
the `try/except` around `db.run(query)` (src/app.py lines 101-104),
embedded as the total function `run_with_recovery` — never propagates a
query-execution failure to its caller: whenever the underlying driver call
raises (`db.run query = .error e`), the operation still returns a plain
string, namely the error description prefixed with the fixed marker
`"Error running query: "`. -/
theorem run_never_raises (db : SQLDatabase) (query e : String)
    (h : db.run query = .error e) :
    run_with_recovery db query = "Error running query: " ++ e := by
  simp [run_with_recovery, h]

theorem run_never_raises_witness :
    run_with_recovery dbErr "SELECT 1" = "Error running query: " ++ "no such table" :=
  run_never_raises dbErr "SELECT 1" "no such table" rfl

/-- C3: truncation budgets. The schema snapshot passed to the step-1
SQL-generation prompt (`get_schema`) never exceeds 6000 characters, the
snapshot passed to the step-4 answer prompt (`answer_schema`) never
exceeds 4000 characters, and the execution-result text passed to step 4
(`pyslice · 3000`) never exceeds 3000; in each case an input at or below
the limit passes through unchanged and a longer input is cut to exactly
the limit. -/
theorem truncation_bounds (db : SQLDatabase) (s : String) :
    (get_schema db).length ≤ 6000 ∧
    (db.get_table_info.length ≤ 6000 → get_schema db = db.get_table_info) ∧
    (6000 ≤ db.get_table_info.length → (get_schema db).length = 6000) ∧
    (answer_schema db).length ≤ 4000 ∧
    (db.get_table_info.length ≤ 4000 → answer_schema db = db.get_table_info) ∧
    (4000 ≤ db.get_table_info.length → (answer_schema db).length = 4000) ∧
    (pyslice s 3000).length ≤ 3000 ∧
    (s.length ≤ 3000 → pyslice s 3000 = s) ∧
    (3000 ≤ s.length → (pyslice s 3000).length = 3000) := by
  refine ⟨?_, ?_, ?_, ?_, ?_, ?_, ?_, ?_, ?_⟩
  · rw [get_schema, pyslice_length]; exact Nat.min_le_left _ _
  · exact fun h => pyslice_of_le _ _ h
  · exact fun h => pyslice_length_of_ge _ _ h
  · rw [answer_schema, pyslice_length]; exact Nat.min_le_left _ _
  · exact fun h => pyslice_of_le _ _ h
  · exact fun h => pyslice_length_of_ge _ _ h
  · rw [pyslice_length]; exact Nat.min_le_left _ _
  · exact fun h => pyslice_of_le _ _ h
  · exact fun h => pyslice_length_of_ge _ _ h

theorem truncation_bounds_witness :
    get_schema dbOk = dbOk.get_table_info ∧
    (get_schema dbLong).length = 6000 ∧
    answer_schema dbOk = dbOk.get_table_info ∧
    (answer_schema dbLong).length = 4000 ∧
    pyslice "xy" 3000 = "xy" ∧
    (pyslice longText 3000).length = 3000 :=
  ⟨(truncation_bounds dbOk "xy").2.1 (by decide),
   (truncation_bounds dbLong "xy").2.2.1 (by simp [dbLong, longText_length]),
   (truncation_bounds dbOk "xy").2.2.2.2.1 (by decide),
   (truncation_bounds dbLong "xy").2.2.2.2.2.1 (by simp [dbLong, longText_length]),
   (truncation_bounds dbOk "xy").2.2.2.2.2.2.2.1 (by decide),
   (truncation_bounds dbOk longText).2.2.2.2.2.2.2.2 (by simp [longText_length])⟩

lemma appended_nil : appended [] = [] := rfl

lemma appended_cons_append (m : Message) (tr : List Event) :
    appended (Event.historyAppend m :: tr) = m :: appended tr := by
  simp [appended]

/-- C7: a completion-client failure in any of the three model calls is not
caught anywhere: whenever `get_response` ends in an error, that error is
one raised by a completion call (there is a prompt on which `llm` failed
with exactly that error), it propagates unhandled to the UI layer
(`Outcome.failure`), and the transcript ends without a new AI message —
only the already-appended Human message remains. -/
theorem completion_error_propagates (llm : String → Except String String)
    (db : SQLDatabase) (hist : List Message) (q e : String)
    (hq : pystrip q ≠ "")
    (hr : (get_response llm q db).fst = .error e) :
    (∃ p, llm p = .error e) ∧
    (ui_step llm db hist q).fst = hist ++ [Message.human q] ∧
    (ui_step llm db hist q).snd.fst = Outcome.failure e := by
  have hpair : get_response llm q db = (.error e, (get_response llm q db).snd) := by
    calc get_response llm q db
        = ((get_response llm q db).fst, (get_response llm q db).snd) := rfl
      _ = (.error e, (get_response llm q db).snd) := by rw [hr]
  refine ⟨?_, ?_, ?_⟩
  · rcases hl1 : llm (sql_gen_prompt (get_schema db) q) with e1 | query
    · refine ⟨sql_gen_prompt (get_schema db) q, ?_⟩
      rw [get_response_err1 llm db q e1 hl1] at hr
      simp only [Except.error.injEq] at hr
      rw [hl1, hr]
    · rcases hl2 : llm (explain_prompt_text query) with e2 | expl
      · refine ⟨explain_prompt_text query, ?_⟩
        rw [get_response_err2 llm db q query e2 hl1 hl2] at hr
        simp only [Except.error.injEq] at hr
        rw [hl2, hr]
      · rcases hl3 : llm (nl_prompt_text (answer_schema db) q query
            (pyslice (run_with_recovery db query) 3000)) with e3 | ans
        · refine ⟨nl_prompt_text (answer_schema db) q query
            (pyslice (run_with_recovery db query) 3000), ?_⟩
          rw [get_response_err3 llm db q query expl e3 hl1 hl2 hl3] at hr
          simp only [Except.error.injEq] at hr
          rw [hl3, hr]
        · rw [get_response_ok llm db q query expl ans hl1 hl2 hl3] at hr
          simp at hr
  · rw [ui_step_err llm db hist q e (get_response llm q db).snd hq hpair]
  · rw [ui_step_err llm db hist q e (get_response llm q db).snd hq hpair]

theorem completion_error_propagates_witness :
    (∃ p, llmFail p = .error "network down") ∧
    (ui_step llmFail dbOk [] "hi").fst = [] ++ [Message.human "hi"] ∧
    (ui_step llmFail dbOk [] "hi").snd.fst = Outcome.failure "network down" :=
  completion_error_propagates llmFail dbOk [] "hi" "network down" (by decide) rfl

/-- C8: the four steps of `get_response` execute strictly sequentially and
each depends on the previous step's output: on every successful run the
trace is exactly the step-1 completion call, then the step-2 call whose
prompt is built from the step-1 output (`r.query`), then the database run
of that same query, then the step-4 call whose prompt is built from the
question, the query, and the step-3 result. -/
theorem pipeline_sequential (llm : String → Except String String)
    (db : SQLDatabase) (q : String) (r : QueryResult)
    (h : (get_response llm q db).fst = .ok r) :
    (get_response llm q db).snd =
      [Event.llmCall (sql_gen_prompt (get_schema db) q) (.ok r.query),
       Event.llmCall (explain_prompt_text r.query) (.ok r.explanation),
       Event.dbRun r.query (db.run r.query),
       Event.llmCall (nl_prompt_text (answer_schema db) q r.query
         (pyslice (run_with_recovery db r.query) 3000)) (.ok r.answer)] := by
  rcases hl1 : llm (sql_gen_prompt (get_schema db) q) with e1 | query
  · rw [get_response_err1 llm db q e1 hl1] at h
    simp at h
  · rcases hl2 : llm (explain_prompt_text query) with e2 | expl
    · rw [get_response_err2 llm db q query e2 hl1 hl2] at h
      simp at h
    · rcases hl3 : llm (nl_prompt_text (answer_schema db) q query
          (pyslice (run_with_recovery db query) 3000)) with e3 | ans
      · rw [get_response_err3 llm db q query expl e3 hl1 hl2 hl3] at h
        simp at h
      · have hok := get_response_ok llm db q query expl ans hl1 hl2 hl3
        rw [hok] at h
        simp only [Except.ok.injEq] at h
        subst h
        rw [hok]

theorem pipeline_sequential_witness :
    (get_response llmConst "hi" dbOk).snd =
      [Event.llmCall (sql_gen_prompt (get_schema dbOk) "hi") (.ok "x"),
       Event.llmCall (explain_prompt_text "x") (.ok "x"),
       Event.dbRun "x" (dbOk.run "x"),
       Event.llmCall (nl_prompt_text (answer_schema dbOk) "hi" "x"
         (pyslice (run_with_recovery dbOk "x") 3000)) (.ok "x")] :=
  pipeline_sequential llmConst dbOk "hi" ⟨"x", "x", "x"⟩ rfl

/-- C9: the raw step-1 completion output is taken verbatim as the SQL
query, with no parsing, validation or sanitization: on a successful run
the `query` field of the result equals the step-1 output exactly, and the
trace contains a database run of that exact same string. -/
theorem raw_query_verbatim (llm : String → Except String String)
    (db : SQLDatabase) (q query : String) (r : QueryResult)
    (h1 : llm (sql_gen_prompt (get_schema db) q) = .ok query)
    (h : (get_response llm q db).fst = .ok r) :
    r.query = query ∧
    Event.dbRun query (db.run query) ∈ (get_response llm q db).snd := by
  rcases hl2 : llm (explain_prompt_text query) with e2 | expl
  · rw [get_response_err2 llm db q query e2 h1 hl2] at h
    simp at h
  · rcases hl3 : llm (nl_prompt_text (answer_schema db) q query
        (pyslice (run_with_recovery db query) 3000)) with e3 | ans
    · rw [get_response_err3 llm db q query expl e3 h1 hl2 hl3] at h
      simp at h
    · have hok := get_response_ok llm db q query expl ans h1 hl2 hl3
      rw [hok] at h
      simp only [Except.ok.injEq] at h
      subst h
      refine ⟨rfl, ?_⟩
      rw [hok]
      simp

theorem raw_query_verbatim_witness :
    (⟨"x", "x", "x"⟩ : QueryResult).query = "x" ∧
    Event.dbRun "x" (dbOk.run "x") ∈ (get_response llmConst "hi" dbOk).snd :=
  raw_query_verbatim llmConst dbOk "hi" "x" ⟨"x", "x", "x"⟩ rfl rfl

/-- C10: frame property. `get_response` never touches the transcript (its
trace contains no transcript append); the transcript after a submission
equals the old transcript extended by exactly the appends recorded in the
UI loop's trace, and those appends are: the Human message then the AI
message on success, the Human message alone on an uncaught completion
failure, and nothing on a skipped (blank) submission. -/
theorem orchestrator_frame (llm : String → Except String String)
    (db : SQLDatabase) (hist : List Message) (q : String) :
    appended (get_response llm q db).snd = [] ∧
    (ui_step llm db hist q).fst = hist ++ appended (ui_step llm db hist q).snd.snd ∧
    (∀ outputs, (ui_step llm db hist q).snd.fst = Outcome.success outputs →
      appended (ui_step llm db hist q).snd.snd =
        [Message.human q, Message.ai (chat_text outputs)]) ∧
    (∀ e, (ui_step llm db hist q).snd.fst = Outcome.failure e →
      appended (ui_step llm db hist q).snd.snd = [Message.human q]) ∧
    ((ui_step llm db hist q).snd.fst = Outcome.skipped →
      appended (ui_step llm db hist q).snd.snd = []) := by
  refine ⟨appended_get_response llm db q, ?_⟩
  by_cases hg : q ≠ "" ∧ pystrip q ≠ ""
  · rcases hgp : get_response llm q db with ⟨f, s⟩
    have hs : appended s = [] := by
      have hg0 := appended_get_response llm db q
      rw [hgp] at hg0
      exact hg0
    cases f with
    | ok outputs =>
      rw [ui_step_ok llm db hist q outputs s hg.2 hgp]
      refine ⟨?_, ?_, ?_, ?_⟩
      · simp [appended_cons_append, appended_append, appended_nil, hs]
      · intro outputs' hout
        simp only [Outcome.success.injEq] at hout
        subst hout
        simp [appended_cons_append, appended_append, appended_nil, hs]
      · intro e hout
        simp at hout
      · intro hout
        simp at hout
    | error e =>
      rw [ui_step_err llm db hist q e s hg.2 hgp]
      refine ⟨?_, ?_, ?_, ?_⟩
      · simp [appended_cons_append, hs]
      · intro outputs hout
        simp at hout
      · intro e' hout
        simp only [Outcome.failure.injEq] at hout
        subst hout
        simp [appended_cons_append, hs]
      · intro hout
        simp at hout
  · have hq : q = "" ∨ pystrip q = "" := by
      rw [not_and_or] at hg
      rcases hg with h | h
      · exact Or.inl (not_not.mp h)
      · exact Or.inr (not_not.mp h)
    rw [ui_step_skip llm db hist q hq]
    refine ⟨?_, ?_, ?_, ?_⟩
    · simp [appended_nil]
    · intro outputs hout
      simp at hout
    · intro e hout
      simp at hout
    · intro _
      simp [appended_nil]

theorem orchestrator_frame_witness :
    appended (ui_step llmConst dbOk [] "hi").snd.snd =
      [Message.human "hi", Message.ai (chat_text ⟨"x", "x", "x"⟩)] :=
  (orchestrator_frame llmConst dbOk [] "hi").2.2.1 ⟨"x", "x", "x"⟩
    (by rw [ui_step_ok llmConst dbOk [] "hi" ⟨"x", "x", "x"⟩ _ (by decide)
      (get_response_ok llmConst dbOk "hi" "x" "x" "x" rfl rfl rfl)])

end SqlAssistant
